import Mathlib

/-
  Verification of the ts-user-service repository: a shallow embedding of
  the authentication and user-management services, with theorems checking
  the natural-language specification against the code.

  Sources embedded:
  - src/src/auth/utils/bycrypt.ts        (hashPassword, comparePasswords)
  - src/src/auth/auth.service.ts         (validateUser, signIn, signUp, validateUserRole)
  - src/src/auth/auth.module.ts          (JwtModule default sign options)
  - src/src/users/users.service.ts       (findOne, create, findById, update, delete)
  - src/src/users/users.controller.ts    (route handlers and guard wiring)
  - RolesGuard (canActivate)

  JavaScript field access on plain objects is modelled by association
  lists of JsValue, so that a missing field reads as the JS value
  undefined, as in the source language.
-/

namespace UserSvc

/-- A JavaScript runtime value, as far as the embedded code needs:
strings, numbers, booleans, and undefined (the result of reading an
absent object field). -/
inductive JsValue where
  | str (s : String)
  | num (n : Nat)
  | bool (b : Bool)
  | undef
deriving DecidableEq, Repr

/-- A plain JavaScript object: an association list of fields. -/
abbrev JsObj := List (String × JsValue)

/-- Reading a field of a JS object: undefined when the field is absent. -/
def getField (obj : JsObj) (key : String) : JsValue :=
  match obj.find? (fun p => p.1 == key) with
  | some p => p.2
  | none => JsValue.undef

/-- Whether a JS object carries a field of the given name. -/
def hasField (obj : JsObj) (key : String) : Bool :=
  obj.any (fun p => p.1 == key)

/-- Object destructuring that drops one field, as in
`const lbrace password, ...rest rbrace = user`. -/
def stripField (obj : JsObj) (key : String) : JsObj :=
  obj.filter (fun p => p.1 != key)

/-- The JavaScript String() conversion on the values above;
String(undefined) is the string "undefined". -/
def jsString : JsValue → String
  | .str s => s
  | .num n => toString n
  | .bool b => if b then "true" else "false"
  | .undef => "undefined"

/-- The JavaScript Number() conversion, restricted to what the embedded
code applies it to; none stands for NaN, so Number(undefined) = none and
a NaN never compares equal to a number. -/
def jsNum : JsValue → Option Nat
  | .num n => some n
  | _ => none

/-- Modelled from the spec: the Role enumeration of
src/users/types/users.type.ts, which is absent from the sources; the
spec gives the enumerated values USER and ADMIN (roles are carried as
strings in the IUser record of users.service.ts). -/
def roleUSER : String := "USER"

/-- Modelled from the spec: the ADMIN member of the Role enumeration. -/
def roleADMIN : String := "ADMIN"

/-- The IUser record of users.service.ts. Dates are modelled as natural
timestamps. -/
structure IUser where
  id : Nat
  email : String
  password : String
  role : String
  isActive : Bool
  createdAt : Nat
  updatedAt : Nat
deriving DecidableEq, Repr

/-- The serialized form of a user entity as the HTTP layer would return
it: every column, the password included. -/
def userObj (u : IUser) : JsObj :=
  [("id", JsValue.num u.id), ("email", JsValue.str u.email),
   ("password", JsValue.str u.password), ("role", JsValue.str u.role),
   ("isActive", JsValue.bool u.isActive),
   ("createdAt", JsValue.num u.createdAt),
   ("updatedAt", JsValue.num u.updatedAt)]

/-- The relational store behind the TypeORM repository: the user rows
plus the id counter the store uses for newly saved rows. -/
structure Store where
  users : List IUser
  nextId : Nat
deriving DecidableEq, Repr

/-- The NestJS HTTP exceptions thrown by the embedded code. -/
inductive HttpError where
  | unauthorized (msg : String)
  | conflict (msg : String)
  | forbidden (msg : String)
  | notFound (msg : String)
deriving DecidableEq, Repr

/-- Modelled from the spec: the bcrypt salt-or-rounds constant of
bycrypt.ts (cost factor 10). -/
def saltOrRounds : Nat := 10

/-- Modelled from the spec: bcrypt.hash of bycrypt.ts, an external
library call. The spec asks only for a one-way salted hash whose digest
verifies against the original plaintext; the model is the injective
tagged encoding below, which keeps digest and plaintext distinct. -/
def hashPassword (password : String) : String :=
  "$2b$" ++ toString saltOrRounds ++ "$" ++ password

/-- Modelled from the spec: bcrypt.compare of bycrypt.ts (the Password
Hasher verify); true exactly when the digest is the hash of the
plaintext. -/
def comparePasswords (password hash : String) : Bool :=
  hash == hashPassword password

/-- The configuration provider: the four JWT-related keys the auth code
reads, each possibly unset. -/
structure Config where
  JWT_SECRET : Option String
  JWT_EXPIRE : Option String
  REFRESH_TOKEN_SECRET : Option String
  REFRESH_TOKEN_EXPIRATION : Option String
deriving DecidableEq, Repr

/-- The JWT claims payload built by auth.service.ts:
sub, email and role. -/
structure JwtPayload where
  sub : Nat
  email : String
  role : String
deriving DecidableEq, Repr

/-- A signed token as jwtService.signAsync produces it: the claims, the
secret used, and the expiry option in force. -/
structure Token where
  payload : JwtPayload
  secret : String
  expiresIn : String
deriving DecidableEq, Repr

/-- signAsync with the module defaults of auth.module.ts:
secret JWT_SECRET alias empty, expiry JWT_EXPIRE alias "1h". -/
def signAccess (cfg : Config) (payload : JwtPayload) : Token :=
  { payload := payload
    secret := cfg.JWT_SECRET.getD ""
    expiresIn := cfg.JWT_EXPIRE.getD "1h" }

/-- signAsync with the per-call options of signIn and signUp:
secret REFRESH_TOKEN_SECRET alias empty, expiry
REFRESH_TOKEN_EXPIRATION alias "7d". -/
def signRefresh (cfg : Config) (payload : JwtPayload) : Token :=
  { payload := payload
    secret := cfg.REFRESH_TOKEN_SECRET.getD ""
    expiresIn := cfg.REFRESH_TOKEN_EXPIRATION.getD "7d" }

/-- Auxiliary decimal parser over characters, used by the duration
model below. -/
def digitsToNat (cs : List Char) : Option Nat :=
  match cs with
  | [] => none
  | _ =>
    cs.foldl
      (fun acc c =>
        match acc with
        | none => none
        | some n => if c.isDigit then some (n * 10 + (c.toNat - 48)) else none)
      (some 0)

/-- Modelled from the spec: conversion of an expiry option string such
as "1h" or "7d" into seconds, following the duration-string convention
the spec attributes to the token library. -/
def expirySeconds (s : String) : Option Nat :=
  match s.data.getLast? with
  | some 'h' => (digitsToNat s.data.dropLast).map (fun n => n * 3600)
  | some 'd' => (digitsToNat s.data.dropLast).map (fun n => n * 86400)
  | _ => digitsToNat s.data

/-- The Kafka event value JSON.stringify serializes in signUp and
delete: id, role, isActive. -/
structure EventValue where
  id : Nat
  role : String
  isActive : Bool
deriving DecidableEq, Repr

/-- A side effect of a service operation, in execution order: a
repository save (insert or replace by id), a repository remove, or a
Kafka emit on a topic with a key and an event value. -/
inductive Effect where
  | save (u : IUser)
  | remove (id : Nat)
  | emit (topic : String) (key : String) (value : EventValue)
deriving DecidableEq, Repr

/-- How the store honours one effect: save upserts by id (a fresh row
consumes the id counter), remove deletes the rows with that id, emit
does not touch the store. -/
def applyEffect (store : Store) (e : Effect) : Store :=
  match e with
  | .save u =>
    if store.users.any (fun v => v.id == u.id) then
      { store with users := store.users.map (fun v => if v.id == u.id then u else v) }
    else
      { users := store.users ++ [u], nextId := store.nextId + 1 }
  | .remove i => { store with users := store.users.filter (fun v => v.id != i) }
  | .emit _ _ _ => store

/-- The store after a list of effects, applied left to right. -/
def applyEffects (store : Store) (effs : List Effect) : Store :=
  effs.foldl applyEffect store

/-- UsersService.findOne: repository lookup by email. -/
def findOne (store : Store) (email : String) : Option IUser :=
  store.users.find? (fun v => v.email == email)

/-- UsersService.create: hash the password, build the entity with
createdAt and updatedAt set to now, and save it; the store assigns the
id, and the entity defaults (modelled from the spec, the entity file
being absent from the sources) give role USER and isActive true. -/
def create (store : Store) (email password : String) (now : Nat) :
    IUser × List Effect :=
  let user : IUser :=
    { id := store.nextId
      email := email
      password := hashPassword password
      role := roleUSER
      isActive := true
      createdAt := now
      updatedAt := now }
  (user, [Effect.save user])

/-- UsersService.findById: repository lookup by id, the password field
destructured away from the returned object. -/
def findById (store : Store) (id : Nat) : Option JsObj :=
  (store.users.find? (fun v => v.id == id)).map
    (fun u => stripField (userObj u) "password")

/-- UsersService.update: ownership check against the request identity,
fetch by id, duplicate-email check, then mutate email, password hash
and updatedAt and save. -/
def update (store : Store) (id : Nat) (email password : String)
    (user : JsObj) (now : Nat) : Except HttpError IUser × List Effect :=
  if jsNum (getField user "userId") ≠ some id then
    (.error (.forbidden "You are not allowed to update this user"), [])
  else
    match store.users.find? (fun v => v.id == id) with
    | none => (.error (.notFound "User not found"), [])
    | some fetchedUser =>
      match findOne store email with
      | some existingUser =>
        if existingUser.id ≠ id then
          (.error (.forbidden "You can\x27t use this email"), [])
        else
          let updated : IUser :=
            { fetchedUser with
              email := email
              password := hashPassword password
              updatedAt := now }
          (.ok updated, [Effect.save updated])
      | none =>
        let updated : IUser :=
          { fetchedUser with
            email := email
            password := hashPassword password
            updatedAt := now }
        (.ok updated, [Effect.save updated])

/-- UsersService.delete: ownership check against the request identity,
fetch by id, repository remove, then one Kafka emit whose key is
String(user.id) computed from the request identity object and whose
value is the event record with isActive false. -/
def delete (store : Store) (id : Nat) (user : JsObj) :
    Except HttpError Unit × List Effect :=
  if jsNum (getField user "userId") ≠ some id then
    (.error (.forbidden "You are not allowed to update this user"), [])
  else
    match store.users.find? (fun v => v.id == id) with
    | none => (.error (.notFound "User not found"), [])
    | some fetchedUser =>
      (.ok (),
       [Effect.remove fetchedUser.id,
        Effect.emit "user-topic" (jsString (getField user "id"))
          { id := id, role := fetchedUser.role, isActive := false }])

/-- AuthService.validateUser as written in auth.service.ts: look up by
email, compare the supplied plaintext DIRECTLY against the stored
password column with ===, and on equality return the user object with
the password destructured away; otherwise null (none). -/
def validateUser (store : Store) (email pass : String) : Option JsObj :=
  match findOne store email with
  | some user =>
    if user.password == pass then some (stripField (userObj user) "password")
    else none
  | none => none

/-- AuthService.signIn: look up by email, verify via comparePasswords,
then mint the access and refresh tokens from the stored record. -/
def signIn (cfg : Config) (store : Store) (email pass : String) :
    Except HttpError (Token × Token) :=
  match findOne store email with
  | none => .error (.unauthorized "Invalid email or password provided.")
  | some user =>
    if comparePasswords pass user.password then
      let payload : JwtPayload :=
        { sub := user.id
          email := user.email
          role := user.role }
      .ok (signAccess cfg payload, signRefresh cfg payload)
    else .error (.unauthorized "Invalid email or password provided.")

/-- AuthService.signUp: pre-check by email (Conflict when taken), create
the user, emit the account-created event keyed by String(user.id) with
value id, role, isActive, and mint both tokens from the fresh record. -/
def signUp (cfg : Config) (store : Store) (email pass : String) (now : Nat) :
    Except HttpError (Token × Token) × List Effect :=
  match findOne store email with
  | some _ => (.error (.conflict "Provided email address cannot be used."), [])
  | none =>
    let created := create store email pass now
    let user := created.1
    let payload : JwtPayload :=
      { sub := user.id
        email := user.email
        role := user.role }
    let ev : EventValue :=
      { id := user.id
        role := user.role
        isActive := user.isActive }
    (.ok (signAccess cfg payload, signRefresh cfg payload),
     created.2 ++ [Effect.emit "user-topic" (toString user.id) ev])

/-- The request identity object validateUserRole attaches to the
request context: userId, email, role — and no id field. -/
def mkIdentity (userId : Nat) (email role : String) : JsObj :=
  [("userId", JsValue.num userId), ("email", JsValue.str email),
   ("role", JsValue.str role)]

/-- AuthService.validateUserRole: look up by email only; Unauthorized
when no user exists or the persisted role differs from the claimed
role; otherwise return the identity built verbatim from the payload. -/
def validateUserRole (store : Store) (payload : JwtPayload) :
    Except HttpError JsObj :=
  match findOne store payload.email with
  | none => .error (.unauthorized "Unauthorized access.")
  | some user =>
    if user.role ≠ payload.role then
      .error (.unauthorized "Unauthorized access.")
    else
      .ok (mkIdentity payload.sub payload.email payload.role)

/-- RolesGuard.canActivate: with no whitelist the check is skipped;
otherwise the attached identity role must be one of the whitelisted
roles, else Forbidden. -/
def rolesGuard (requiredRoles : Option (List String)) (user : JsObj) :
    Except HttpError Bool :=
  match requiredRoles with
  | none => .ok true
  | some roles =>
    if roles.any (fun role => getField user "role" == JsValue.str role) then
      .ok true
    else
      .error (.forbidden "You do not have permission to access this resource.")

/-- The GET /users/:id pipeline: the JWT strategy re-validates the
payload through validateUserRole, the RolesGuard checks the USER/ADMIN
whitelist of the route, and the handler returns findById — with no
ownership comparison of the path id against the caller id. -/
def handleGetUser (store : Store) (payload : JwtPayload) (id : Nat) :
    Except HttpError (Option JsObj) :=
  match validateUserRole store payload with
  | .error e => .error e
  | .ok user =>
    match rolesGuard (some [roleUSER, roleADMIN]) user with
    | .error e => .error e
    | .ok _ => .ok (findById store id)

/-- The PUT /users/:id handler: delegates to update and returns the
updated entity, serialized with every column. -/
def updateUserProfile (store : Store) (id : Nat) (email password : String)
    (user : JsObj) (now : Nat) : Except HttpError JsObj × List Effect :=
  let res := update store id email password user now
  (res.1.map userObj, res.2)

/-- A sample stored user whose password column holds the bcrypt digest
of the plaintext secret123. -/
def demoUser : IUser :=
  { id := 1
    email := "alice@example.com"
    password := hashPassword "secret123"
    role := roleUSER
    isActive := true
    createdAt := 0
    updatedAt := 0 }

/-- A second sample stored user. -/
def bobUser : IUser :=
  { id := 2
    email := "bob@example.com"
    password := hashPassword "bobpass123"
    role := roleUSER
    isActive := true
    createdAt := 0
    updatedAt := 0 }

/-- A store holding only the first sample user. -/
def demoStore : Store := { users := [demoUser], nextId := 2 }

/-- A store holding both sample users. -/
def demoStore2 : Store := { users := [demoUser, bobUser], nextId := 3 }

/-- A sample configuration with distinct secrets and neither expiry
configured. -/
def cfg0 : Config :=
  { JWT_SECRET := some "access-secret"
    JWT_EXPIRE := none
    REFRESH_TOKEN_SECRET := some "refresh-secret"
    REFRESH_TOKEN_EXPIRATION := none }

/-- Auxiliary: stripping a field and then testing for it is false. -/
theorem hasField_stripField (obj : JsObj) (k : String) :
    hasField (stripField obj k) k = false := by
  induction obj with
  | nil => rfl
  | cons p rest ih =>
    by_cases h : p.1 = k
    · simpa [stripField, List.filter_cons, h] using ih
    · simp [stripField, hasField, List.filter_cons, h]

/-- Auxiliary: after filtering out the rows with a given id, a find by
that id returns nothing. -/
theorem find?_id_filter_ne (l : List IUser) (i : Nat) :
    (l.filter (fun v => v.id != i)).find? (fun v => v.id == i) = none := by
  induction l with
  | nil => rfl
  | cons a l ih =>
    by_cases h : a.id = i
    · simp [List.filter_cons, h]
    · simp [List.filter_cons, List.find?_cons, h]

/-- C1: the claim says validateUser checks the supplied plaintext
against the stored digest with the Password Hasher verify. The code
instead compares the plaintext to the digest with ===: for the stored
user whose column holds the digest of secret123, the hasher verify
accepts secret123, yet validateUser returns null for it — and would
accept the digest string itself as the password. -/
theorem validateUser_plaintext_compare_bug :
    comparePasswords "secret123" demoUser.password = true ∧
    validateUser demoStore "alice@example.com" "secret123" = none ∧
    validateUser demoStore "alice@example.com" (hashPassword "secret123") =
      some (stripField (userObj demoUser) "password") := by
  refine ⟨by decide, by decide, by decide⟩

/-- C2: validateUserRole raises Unauthorized exactly when no user exists
for the payload email or the persisted role differs from the claimed
role; otherwise it returns the identity object of userId, email and
role. In particular a token that was valid at issuance is rejected by
the access-token re-validation once the stored role has changed. -/
theorem validateUserRole_role_recheck (store : Store) (payload : JwtPayload) :
    (validateUserRole store payload =
        .error (.unauthorized "Unauthorized access.") ↔
      findOne store payload.email = none ∨
        ∃ u, findOne store payload.email = some u ∧ u.role ≠ payload.role) ∧
    ((∃ u, findOne store payload.email = some u ∧ u.role = payload.role) →
      validateUserRole store payload =
        .ok (mkIdentity payload.sub payload.email payload.role)) ∧
    (∀ storeLater : Store, ∀ uLater : IUser,
      findOne storeLater payload.email = some uLater →
      uLater.role ≠ payload.role →
      validateUserRole storeLater payload =
        .error (.unauthorized "Unauthorized access.")) := by
  refine ⟨?_, ?_, ?_⟩
  · unfold validateUserRole
    cases hfo : findOne store payload.email with
    | none => simp
    | some u => by_cases hr : u.role = payload.role <;> simp [hr]
  · rintro ⟨u, hu, hr⟩
    unfold validateUserRole
    simp [hu, hr]
  · intro storeLater uLater hu hne
    unfold validateUserRole
    simp [hu, hne]

/-- Witness for C2 at a concrete store and payload: the matching role
validates and the identity is returned. -/
theorem validateUserRole_role_recheck_witness :
    validateUserRole demoStore
        { sub := 1, email := "alice@example.com", role := "USER" } =
      .ok (mkIdentity 1 "alice@example.com" "USER") :=
  (validateUserRole_role_recheck demoStore
    { sub := 1, email := "alice@example.com", role := "USER" }).2.1
    ⟨demoUser, rfl, rfl⟩

/-- C10: validateUserRole looks the user up by email only and never
compares payload.sub to the stored id: whenever the email and role
match a persisted user, validation succeeds for every value of sub, and
the returned identity carries that sub verbatim as userId. -/
theorem validateUserRole_ignores_sub (store : Store) (email role : String)
    (u : IUser) (hu : findOne store email = some u) (hrole : u.role = role) :
    ∀ sub : Nat,
      validateUserRole store { sub := sub, email := email, role := role } =
        .ok (mkIdentity sub email role) := by
  intro sub
  unfold validateUserRole
  simp [hu, hrole]

/-- Witness for C10: a payload whose sub is 999, an id belonging to no
stored user, still validates and 999 is echoed back as userId. -/
theorem validateUserRole_ignores_sub_witness :
    validateUserRole demoStore
        { sub := 999, email := "alice@example.com", role := "USER" } =
      .ok (mkIdentity 999 "alice@example.com" "USER") :=
  validateUserRole_ignores_sub demoStore "alice@example.com" "USER" demoUser
    rfl rfl 999

/-- C9: for every delete through the request identity attached by
validateUserRole — an object with fields userId, email and role and no
id field — the emitted Kafka key String(user.id) is the string
undefined, even though the event value carries the correct id. -/
theorem delete_event_key_undefined (store : Store) (id userId : Nat)
    (email role : String) (u : IUser)
    (hown : userId = id)
    (hu : store.users.find? (fun v => v.id == id) = some u) :
    delete store id (mkIdentity userId email role) =
      (.ok (), [Effect.remove u.id,
        Effect.emit "user-topic" "undefined"
          { id := id, role := u.role, isActive := false }]) := by
  subst hown
  unfold delete
  simp [mkIdentity, getField, jsNum, jsString, hu]

/-- Witness for C9 at a concrete store: deleting user 1 emits the key
undefined with value id 1. -/
theorem delete_event_key_undefined_witness :
    delete demoStore 1 (mkIdentity 1 "alice@example.com" "USER") =
      (.ok (), [Effect.remove demoUser.id,
        Effect.emit "user-topic" "undefined"
          { id := 1, role := demoUser.role, isActive := false }]) :=
  delete_event_key_undefined demoStore 1 1 "alice@example.com" "USER" demoUser
    rfl rfl

/-- C8: every successful delete produces exactly one emit effect, whose
value carries the deleted user id, its role, and isActive false; the
emit comes after the repository remove in the effect order; and the
store obtained by applying the effects no longer returns that user. -/
theorem delete_spec (store : Store) (id : Nat) (user : JsObj)
    (effs : List Effect)
    (h : delete store id user = (.ok (), effs)) :
    ∃ u, store.users.find? (fun v => v.id == id) = some u ∧
      effs = [Effect.remove u.id,
        Effect.emit "user-topic" (jsString (getField user "id"))
          { id := id, role := u.role, isActive := false }] ∧
      effs.countP
        (fun e => match e with | .emit _ _ _ => true | _ => false) = 1 ∧
      findById (applyEffects store effs) id = none := by
  unfold delete at h
  split at h
  · simp at h
  · split at h
    · simp at h
    · rename_i fetchedUser heq
      simp only [Prod.mk.injEq, true_and] at h
      subst h
      have hid : fetchedUser.id = id := by
        have := List.find?_some heq
        simpa using this
      refine ⟨fetchedUser, heq, rfl, rfl, ?_⟩
      unfold applyEffects applyEffect findById
      simp [hid, find?_id_filter_ne]

/-- Witness for C8 at a concrete store: deleting user 1 leaves the
expected effect list and the store no longer finds the user. -/
theorem delete_spec_witness :
    ∃ u, demoStore.users.find? (fun v => v.id == 1) = some u ∧
      [Effect.remove (1 : Nat),
        Effect.emit "user-topic" "undefined"
          { id := 1, role := "USER", isActive := false }] =
        [Effect.remove u.id,
          Effect.emit "user-topic"
            (jsString (getField (mkIdentity 1 "alice@example.com" "USER") "id"))
            { id := 1, role := u.role, isActive := false }] ∧
      ([Effect.remove (1 : Nat),
        Effect.emit "user-topic" "undefined"
          { id := 1, role := "USER", isActive := false }]).countP
        (fun e => match e with | .emit _ _ _ => true | _ => false) = 1 ∧
      findById (applyEffects demoStore
        [Effect.remove (1 : Nat),
         Effect.emit "user-topic" "undefined"
           { id := 1, role := "USER", isActive := false }]) 1 = none :=
  delete_spec demoStore 1 (mkIdentity 1 "alice@example.com" "USER")
    [Effect.remove (1 : Nat),
     Effect.emit "user-topic" "undefined"
       { id := 1, role := "USER", isActive := false }]
    rfl

/-- C3: signUp with an already-present email fails with Conflict and
produces no effect, so the store is unchanged; with a fresh email it
hashes the password, saves the user with createdAt and updatedAt set to
now, emits exactly one account-created event keyed by the new user id
whose value carries id, role and isActive, and returns the access and
refresh token minted from the freshly created record. -/
theorem signUp_spec (cfg : Config) (store : Store) (email pass : String)
    (now : Nat) :
    ((∃ u, findOne store email = some u) →
      signUp cfg store email pass now =
        (.error (.conflict "Provided email address cannot be used."), []) ∧
      applyEffects store [] = store) ∧
    (findOne store email = none →
      ∃ user : IUser,
        user.id = store.nextId ∧ user.email = email ∧
        user.password = hashPassword pass ∧
        user.createdAt = now ∧ user.updatedAt = now ∧
        signUp cfg store email pass now =
          (.ok (signAccess cfg
                  { sub := user.id, email := user.email, role := user.role },
                signRefresh cfg
                  { sub := user.id, email := user.email, role := user.role }),
           [Effect.save user,
            Effect.emit "user-topic" (toString user.id)
              { id := user.id, role := user.role, isActive := user.isActive }])) := by
  constructor
  · rintro ⟨u, hu⟩
    refine ⟨?_, rfl⟩
    unfold signUp
    rw [hu]
  · intro h
    refine ⟨{ id := store.nextId
              email := email
              password := hashPassword pass
              role := roleUSER
              isActive := true
              createdAt := now
              updatedAt := now },
            rfl, rfl, rfl, rfl, rfl, ?_⟩
    unfold signUp create
    rw [h]
    rfl

/-- Witness for C3 at a concrete store: signing up an email that is
already taken yields Conflict and the empty effect list. -/
theorem signUp_spec_witness :
    signUp cfg0 demoStore "alice@example.com" "pw123456x" 0 =
      (.error (.conflict "Provided email address cannot be used."), []) :=
  ((signUp_spec cfg0 demoStore "alice@example.com" "pw123456x" 0).1
    ⟨demoUser, rfl⟩).1

/-- C4 counterexample: caller with role USER and id 1 requests
GET /users/2 — the claim says this fails with Forbidden, but the
pipeline has no ownership check and returns the other user record. -/
theorem getUser_foreign_id_counterexample :
    handleGetUser demoStore2
        { sub := 1, email := "alice@example.com", role := "USER" } 2 =
      .ok (some (stripField (userObj bobUser) "password")) := rfl

/-- C4 (amended): for every authenticated GET /users/:id whose payload
matches a persisted user with role USER or ADMIN, the request succeeds
and returns the findById record — for both roles and regardless of
whether the path id equals the caller id. -/
theorem handleGetUser_no_ownership_check (store : Store)
    (payload : JwtPayload) (id : Nat) (u : IUser)
    (hu : findOne store payload.email = some u)
    (hrole : u.role = payload.role)
    (hwhite : payload.role = roleUSER ∨ payload.role = roleADMIN) :
    handleGetUser store payload id = .ok (findById store id) := by
  unfold handleGetUser
  have hv : validateUserRole store payload =
      .ok (mkIdentity payload.sub payload.email payload.role) := by
    unfold validateUserRole
    simp [hu, hrole]
  rw [hv]
  rcases hwhite with h | h <;> rw [h] <;> rfl

/-- Witness for C4 at a concrete input: bob, role USER, reads the
record of user 1 successfully. -/
theorem handleGetUser_no_ownership_check_witness :
    handleGetUser demoStore2
        { sub := 2, email := "bob@example.com", role := "USER" } 1 =
      .ok (findById demoStore2 1) :=
  handleGetUser_no_ownership_check demoStore2
    { sub := 2, email := "bob@example.com", role := "USER" } 1 bobUser
    rfl rfl (Or.inl rfl)

/-- C5 counterexample: the claim says no operation echoes the password
field back; yet the PUT /users/:id response object of a successful
update does carry a password field. -/
theorem update_returns_password_counterexample :
    ((updateUserProfile demoStore2 1 "alice@example.com" "newpass9x"
        (mkIdentity 1 "alice@example.com" "USER") 7).1.map
      (fun obj => hasField obj "password")) = Except.ok true := rfl

/-- C5 (amended): GET /users/:id via findById never returns a password
field, but PUT /users/:id via update returns the full entity, password
field (the fresh hash) included. -/
theorem password_field_in_responses (store : Store) (id : Nat) :
    (∀ obj, findById store id = some obj →
      hasField obj "password" = false) ∧
    (∀ email password : String, ∀ user : JsObj, ∀ now : Nat,
      ∀ obj : JsObj, ∀ effs : List Effect,
      updateUserProfile store id email password user now = (.ok obj, effs) →
      hasField obj "password" = true) := by
  constructor
  · intro obj hobj
    unfold findById at hobj
    cases hfind : store.users.find? (fun v => v.id == id) with
    | none => rw [hfind] at hobj; simp at hobj
    | some u =>
      rw [hfind] at hobj
      have hv : stripField (userObj u) "password" = obj := Option.some.inj hobj
      subst hv
      exact hasField_stripField _ _
  · intro email password user now obj effs h
    unfold updateUserProfile at h
    have h1 : (update store id email password user now).1.map userObj =
        .ok obj := congrArg Prod.fst h
    cases hres : (update store id email password user now).1 with
    | error e =>
      rw [hres] at h1
      exact Except.noConfusion h1
    | ok v =>
      rw [hres] at h1
      have hv : userObj v = obj := Except.ok.inj h1
      subst hv
      rfl

/-- Witness for C5 at a concrete input: the findById response of user 1
carries no password field. -/
theorem password_field_in_responses_witness :
    hasField (stripField (userObj demoUser) "password") "password" = false :=
  (password_field_in_responses demoStore 1).1
    (stripField (userObj demoUser) "password") rfl

/-- C6 counterexample: the claim says the default refresh expiry is
30d; with no refresh expiry configured, the refresh token of a
successful sign-in carries the default expiry 7d instead. -/
theorem refresh_default_expiry_counterexample :
    cfg0.REFRESH_TOKEN_EXPIRATION = none ∧
    (signIn cfg0 demoStore "alice@example.com" "secret123").map
      (fun p => p.2.expiresIn) = Except.ok "7d" ∧
    ("7d" == "30d") = false := ⟨rfl, rfl, rfl⟩

/-- C6 (amended): in both signIn and signUp the refresh token is signed
with the secret read from the REFRESH_TOKEN_SECRET key, separate from
the access token key JWT_SECRET, and when no refresh expiry is
configured the default is 7d — still longer than the access token
default 1h. -/
theorem token_secret_and_expiry (cfg : Config) (store : Store)
    (email pass email2 pass2 : String) (now : Nat) (a r a2 r2 : Token)
    (effs : List Effect)
    (hs : signIn cfg store email pass = .ok (a, r))
    (hs2 : signUp cfg store email2 pass2 now = (.ok (a2, r2), effs)) :
    a.secret = cfg.JWT_SECRET.getD "" ∧
    a.expiresIn = cfg.JWT_EXPIRE.getD "1h" ∧
    r.secret = cfg.REFRESH_TOKEN_SECRET.getD "" ∧
    r.expiresIn = cfg.REFRESH_TOKEN_EXPIRATION.getD "7d" ∧
    a2.secret = cfg.JWT_SECRET.getD "" ∧
    a2.expiresIn = cfg.JWT_EXPIRE.getD "1h" ∧
    r2.secret = cfg.REFRESH_TOKEN_SECRET.getD "" ∧
    r2.expiresIn = cfg.REFRESH_TOKEN_EXPIRATION.getD "7d" ∧
    expirySeconds "7d" = some 604800 ∧
    expirySeconds "1h" = some 3600 ∧ 3600 < 604800 := by
  have hacc : ∀ p : JwtPayload, (signAccess cfg p).secret = cfg.JWT_SECRET.getD "" ∧
      (signAccess cfg p).expiresIn = cfg.JWT_EXPIRE.getD "1h" :=
    fun _ => ⟨rfl, rfl⟩
  have href : ∀ p : JwtPayload,
      (signRefresh cfg p).secret = cfg.REFRESH_TOKEN_SECRET.getD "" ∧
      (signRefresh cfg p).expiresIn = cfg.REFRESH_TOKEN_EXPIRATION.getD "7d" :=
    fun _ => ⟨rfl, rfl⟩
  unfold signIn at hs
  unfold signUp at hs2
  split at hs
  · exact Except.noConfusion hs
  · rename_i u hfind
    split at hs
    · have hpair := Except.ok.inj hs
      have ha : signAccess cfg
          { sub := u.id, email := u.email, role := u.role } = a :=
        congrArg Prod.fst hpair
      have hr : signRefresh cfg
          { sub := u.id, email := u.email, role := u.role } = r :=
        congrArg Prod.snd hpair
      split at hs2
      · have := congrArg Prod.fst hs2
        exact Except.noConfusion this
      · have hpair2 := Except.ok.inj (congrArg Prod.fst hs2)
        rw [Prod.mk.injEq] at hpair2
        obtain ⟨ha2, hr2⟩ := hpair2
        refine ⟨?_, ?_, ?_, ?_, ?_, ?_, ?_, ?_, by decide, by decide, by omega⟩
        · rw [← ha]; exact (hacc _).1
        · rw [← ha]; exact (hacc _).2
        · rw [← hr]; exact (href _).1
        · rw [← hr]; exact (href _).2
        · rw [← ha2]; exact (hacc _).1
        · rw [← ha2]; exact (hacc _).2
        · rw [← hr2]; exact (href _).1
        · rw [← hr2]; exact (href _).2
    · exact Except.noConfusion hs

/-- Witness for C6: concrete sign-in of the stored user and sign-up of
a fresh email under a configuration with neither expiry set. -/
theorem token_secret_and_expiry_witness :
    "access-secret" = cfg0.JWT_SECRET.getD "" ∧
    "1h" = cfg0.JWT_EXPIRE.getD "1h" ∧
    "refresh-secret" = cfg0.REFRESH_TOKEN_SECRET.getD "" ∧
    "7d" = cfg0.REFRESH_TOKEN_EXPIRATION.getD "7d" ∧
    "access-secret" = cfg0.JWT_SECRET.getD "" ∧
    "1h" = cfg0.JWT_EXPIRE.getD "1h" ∧
    "refresh-secret" = cfg0.REFRESH_TOKEN_SECRET.getD "" ∧
    "7d" = cfg0.REFRESH_TOKEN_EXPIRATION.getD "7d" ∧
    expirySeconds "7d" = some 604800 ∧
    expirySeconds "1h" = some 3600 ∧ 3600 < 604800 :=
  token_secret_and_expiry cfg0 demoStore
    "alice@example.com" "secret123" "carol@example.com" "carolpass1" 5
    { payload := { sub := 1, email := "alice@example.com", role := "USER" }
      secret := "access-secret", expiresIn := "1h" }
    { payload := { sub := 1, email := "alice@example.com", role := "USER" }
      secret := "refresh-secret", expiresIn := "7d" }
    { payload := { sub := 2, email := "carol@example.com", role := "USER" }
      secret := "access-secret", expiresIn := "1h" }
    { payload := { sub := 2, email := "carol@example.com", role := "USER" }
      secret := "refresh-secret", expiresIn := "7d" }
    [Effect.save
      { id := 2, email := "carol@example.com"
        password := hashPassword "carolpass1", role := "USER"
        isActive := true, createdAt := 5, updatedAt := 5 },
     Effect.emit "user-topic" "2"
       { id := 2, role := "USER", isActive := true }]
    rfl rfl

/-- C7 counterexample: user 1 changes the profile email to the email of
user 2 — the claim says this fails with Conflict, but the code raises
Forbidden. -/
theorem update_duplicate_email_counterexample :
    update demoStore2 1 "bob@example.com" "newpass99"
        (mkIdentity 1 "alice@example.com" "USER") 7 =
      (.error (.forbidden "You can\x27t use this email"), []) := rfl

/-- C7 (amended): a profile update changing the email to one already
belonging to a different user fails with Forbidden (not Conflict) and
produces no effect, so the target record is left unchanged. -/
theorem update_duplicate_email_forbidden (store : Store) (id : Nat)
    (email password : String) (user : JsObj) (now : Nat)
    (other self : IUser)
    (hown : jsNum (getField user "userId") = some id)
    (hself : store.users.find? (fun v => v.id == id) = some self)
    (hex : findOne store email = some other)
    (hne : other.id ≠ id) :
    update store id email password user now =
      (.error (.forbidden "You can\x27t use this email"), []) ∧
    applyEffects store [] = store := by
  refine ⟨?_, rfl⟩
  unfold update
  rw [hown, hself, hex]
  simp [hne]

/-- Witness for C7 at a concrete store: user 1 taking the email of user
2 is rejected with Forbidden and the store is unchanged. -/
theorem update_duplicate_email_forbidden_witness :
    update demoStore2 1 "bob@example.com" "newpass77"
        (mkIdentity 1 "alice@example.com" "USER") 7 =
      (.error (.forbidden "You can\x27t use this email"), []) ∧
    applyEffects demoStore2 [] = demoStore2 :=
  update_duplicate_email_forbidden demoStore2 1 "bob@example.com" "newpass77"
    (mkIdentity 1 "alice@example.com" "USER") 7 bobUser demoUser
    rfl rfl rfl (by decide)

end UserSvc
